import Mathlib

/-!
Verification of the CSS-Frontend gateway (src/app.js): a Backend-For-Frontend
proxy between a browser UI and an upstream incident-management API.  The Express
handlers are embedded shallowly: each route handler becomes a pure Lean function
from the incoming request and an upstream oracle to the outgoing response
together with the list of upstream HTTP calls it issued.  A network failure of
the fetch call (connection refused, timeout, DNS failure) is modelled as the
oracle returning an exceptional result carrying the JS error message; a body on
which a JSON parse would throw is modelled as an upstream response whose
`bodyJson` component is `none`.
-/

namespace Gateway

/-- A JSON value, as produced by body-parser on the way in and by
JSON.parse of an upstream body. Numbers are modelled as integers; no claim
depends on fractional values. -/
inductive Json where
  | null : Json
  | bool : Bool → Json
  | num : Int → Json
  | str : String → Json
  | arr : List Json → Json
  | obj : List (String × Json) → Json


/-- A JavaScript property-access result: the property value, or undefined. -/
inductive JsVal where
  | undefined : JsVal
  | val : Json → JsVal


/-- JS truthiness of a JSON value (null, false, 0 and the empty string are
falsy; arrays and objects are truthy). -/
def jsTruthy : Json → Bool
  | .null => false
  | .bool b => b
  | .num n => n != 0
  | .str s => s != ""
  | .arr _ => true
  | .obj _ => true

/-- JS truthiness of a property-access result (undefined is falsy). -/
def JsVal.truthy : JsVal → Bool
  | .undefined => false
  | .val j => jsTruthy j

/-- Property access `j.k` on a non-null value: the field of an object, or
undefined on a missing field and on every non-object. (Access on null throws;
the handlers below branch on null before calling this.) -/
def jsField (j : Json) (k : String) : JsVal :=
  match j with
  | .obj fs =>
      match fs.lookup k with
      | some v => .val v
      | none => .undefined
  | _ => .undefined

/-- The JS expression `v \x7c\x7c d`: the value when truthy, else the default. -/
def jsOr (v : JsVal) (d : Json) : Json :=
  match v with
  | .val j => if jsTruthy j then j else d
  | .undefined => d

/-- Whether the pattern occurs at the head of the text. -/
def charsMatchAt : List Char → List Char → Bool
  | [], _ => true
  | _ :: _, [] => false
  | a :: as, b :: bs => a == b && charsMatchAt as bs

/-- Whether the pattern occurs anywhere in the text. -/
def charsFind (pat : List Char) : List Char → Bool
  | [] => charsMatchAt pat []
  | c :: cs => charsMatchAt pat (c :: cs) || charsFind pat cs

/-- `s.includes(pat)` of JS strings: substring occurrence, true on the empty
pattern. -/
def strIncludes (s pat : String) : Bool :=
  charsFind pat.data s.data

/-- One HTTP call issued to the upstream service: method, path relative to
BACKEND_API_URL, optional Authorization header, optional JSON body. -/
structure UpstreamCall where
  method : String
  path : String
  authHeader : Option String
  body : Option Json


/-- An upstream HTTP response as the gateway observes it: status code,
content-type header (none when the header is absent), raw body text, and the
result of JSON-parsing that text (`none` when `.json()` would throw). -/
structure UpstreamResp where
  status : Nat
  contentType : Option String
  bodyText : String
  bodyJson : Option Json


/-- The upstream oracle: what one fetch to the upstream returns. An
exceptional result carries the JS error message of the network failure. -/
def Upstream : Type := UpstreamCall → Except String UpstreamResp

/-- `response.ok` of fetch: status in 200..299. -/
def respOk (s : Nat) : Bool := 200 ≤ s && s < 300

/-- Effect of a handler on the session cookie: untouched, set (the arguments
mirror the options object passed to res.cookie, max-age in milliseconds), or
cleared. -/
inductive CookieEffect where
  | noChange : CookieEffect
  | set (name : String) (value : Json) (httpOnly secure : Bool)
      (maxAgeMs : Nat) (sameSite : String) : CookieEffect
  | clear (name : String) : CookieEffect


/-- The response the gateway sends to the browser. -/
structure GatewayResponse where
  status : Nat
  body : Json
  cookie : CookieEffect


/-- Complete observable outcome of one handler run: the upstream calls made
(in order) and the browser-facing response. -/
structure GatewayResult where
  calls : List UpstreamCall
  response : GatewayResponse


/-- The incoming browser request: parsed cookies and the parsed JSON body
(body-parser in strict mode yields a JSON object; it is modelled by its
field list). Route parameters are passed separately by the route table. -/
structure Request where
  cookies : List (String × String)
  body : List (String × Json)

/-- Deployment environment: NODE_ENV decides the Secure cookie flag. -/
structure Env where
  nodeEnv : String

/-- Body `(error: msg)` of the gateway's synthesized JSON error responses. -/
def errBody (msg : String) : Json := .obj [("error", .str msg)]

/-- Body `(message: msg)` of the gateway's synthesized success responses. -/
def msgBody (msg : String) : Json := .obj [("message", .str msg)]

/-- `JSON.stringify` with destructured fields: the field is kept only when
present (an undefined value is omitted from the serialization). -/
def pickField (body : List (String × Json)) (k : String) : List (String × Json) :=
  match body.lookup k with
  | some v => [(k, v)]
  | none => []

/-- The body the login and register proxies forward upstream:
`JSON.stringify` applied to the destructured username and password. -/
def credForwardBody (body : List (String × Json)) : Json :=
  .obj (pickField body "username" ++ pickField body "password")

/-- The upstream call built by the login proxy: POST /api/login with the
forwarded credentials and no Authorization header. -/
def loginCall (req : Request) : UpstreamCall :=
  { method := "POST", path := "/api/login", authHeader := none,
    body := some (credForwardBody req.body) }

/-- The if/else of the login proxy once the upstream body parsed to a
non-null value: when the response is ok and the token field truthy, set the
jwtToken cookie (HttpOnly, Secure only in production, max-age 3600000 ms,
SameSite Lax) and answer 200 with the success message; otherwise mirror the
status with the body's error field or the generic login failure. -/
def loginRespond (env : Env) (call : UpstreamCall) (status : Nat) (d : Json) :
    GatewayResult :=
  if respOk status && (jsField d "token").truthy then
    ⟨[call],
      ⟨200, msgBody "Login successful",
        .set "jwtToken" (jsOr (jsField d "token") .null) true
          (env.nodeEnv == "production") 3600000 "Lax"⟩⟩
  else
    ⟨[call],
      ⟨status, .obj [("error", jsOr (jsField d "error") (.str "Login failed"))],
        .noChange⟩⟩

/-- src/app.js lines 27-57: the login proxy. On a fetch success it parses the
body and runs loginRespond on it. A network failure, a JSON parse failure, or
a null body (whose token access throws) falls into the catch and yields a 500
generic error. -/
def loginHandler (up : Upstream) (env : Env) (req : Request) : GatewayResult :=
  match up (loginCall req) with
  | .error _ =>
      ⟨[loginCall req],
        ⟨500, errBody "Internal server error during login proxy.", .noChange⟩⟩
  | .ok r =>
      match r.bodyJson with
      | none =>
          ⟨[loginCall req],
            ⟨500, errBody "Internal server error during login proxy.", .noChange⟩⟩
      | some data =>
          match data with
          | .null =>
              ⟨[loginCall req],
                ⟨500, errBody "Internal server error during login proxy.", .noChange⟩⟩
          | d => loginRespond env (loginCall req) r.status d

/-- The upstream call built by the register proxy. -/
def registerCall (req : Request) : UpstreamCall :=
  { method := "POST", path := "/api/register", authHeader := none,
    body := some (credForwardBody req.body) }

/-- src/app.js lines 60-96: the register proxy. It reads the upstream body as
text hence tries JSON.parse: on parse failure it answers 500 with a
non-JSON-response error carrying the raw text; otherwise it mirrors status and
parsed body. A network failure yields 500 with the error message in a details
field. It never touches the session cookie. -/
def registerHandler (up : Upstream) (req : Request) : GatewayResult :=
  match up (registerCall req) with
  | .error m =>
      ⟨[registerCall req],
        ⟨500, .obj [("error", .str "Internal server error during registration proxy."),
          ("details", .str m)], .noChange⟩⟩
  | .ok r =>
      match r.bodyJson with
      | none =>
          ⟨[registerCall req],
            ⟨500, .obj [("error", .str "Backend returned non-JSON response"),
              ("response", .str r.bodyText)], .noChange⟩⟩
      | some data =>
          ⟨[registerCall req], ⟨r.status, data, .noChange⟩⟩

/-- The 401 response the session guard produces locally. -/
def guardReject : GatewayResult :=
  ⟨[], ⟨401, errBody "Authentication required. No token found.", .noChange⟩⟩

/-- src/app.js lines 99-108: the proxyAuthenticate middleware. It reads the
jwtToken cookie; when the cookie is missing or (being a JS string) falsy, the
request is answered locally with 401 and no upstream call; otherwise the token
is attached and the protected handler runs. -/
def proxyAuthenticate (req : Request) (next : String → GatewayResult) : GatewayResult :=
  match req.cookies.lookup "jwtToken" with
  | none => guardReject
  | some token => if token == "" then guardReject else next token

/-- The Authorization header value injected on protected calls. -/
def bearer (token : String) : String := "Bearer " ++ token

/-- The normalized session-expiry response: the upstream status is mirrored
and the jwtToken cookie is cleared. -/
def sessionExpired (call : UpstreamCall) (status : Nat) : GatewayResult :=
  ⟨[call], ⟨status, errBody "Session expired or invalid token. Please log in again.",
    .clear "jwtToken"⟩⟩

/-- The URL of the shared GET-incidents handler: the single-incident path is
picked only when the id parameter is truthy (the JS conditional on id). -/
def incidentsUrl (id : Option String) : String :=
  match id with
  | some i => if i == "" then "/api/incidents" else "/api/incidents/" ++ i
  | none => "/api/incidents"

/-- The upstream call of the shared GET-incidents handler. -/
def getIncidentsCall (token : String) (id : Option String) : UpstreamCall :=
  ⟨"GET", incidentsUrl id, some (bearer token), none⟩

/-- The content-type guard of the GET-incidents handler: the header must be
present and include application/json. -/
def contentTypeJson : Option String → Bool
  | none => false
  | some ct => strIncludes ct "application/json"

/-- src/app.js lines 111-146: the shared GET-incidents handler. After the
fetch: upstream 401 or 403 clears the cookie and mirrors the status with the
normalized message; a missing or non-JSON content-type yields 500 with the raw
body text in a details field; otherwise the JSON body is parsed and mirrored
(a parse failure throws into the catch, as does a network failure, giving the
generic 500 fetch-proxy error). -/
def handleGetIncidents (up : Upstream) (token : String) (id : Option String) :
    GatewayResult :=
  match up (getIncidentsCall token id) with
  | .error _ =>
      ⟨[getIncidentsCall token id],
        ⟨500, errBody "Internal server error during incident fetch proxy.", .noChange⟩⟩
  | .ok r =>
      if r.status == 401 || r.status == 403 then
        sessionExpired (getIncidentsCall token id) r.status
      else
        if !contentTypeJson r.contentType then
          ⟨[getIncidentsCall token id],
            ⟨500, .obj [("error", .str "Backend service unavailable or incorrect response format"),
              ("details", .str r.bodyText)], .noChange⟩⟩
        else
          match r.bodyJson with
          | none =>
              ⟨[getIncidentsCall token id],
                ⟨500, errBody "Internal server error during incident fetch proxy.", .noChange⟩⟩
          | some data => ⟨[getIncidentsCall token id], ⟨r.status, data, .noChange⟩⟩

/-- Shared shape of the create, update, delete and escalate proxies after the
fetch (the four route bodies in src/app.js are line-for-line identical up to
the upstream call and the catch message): upstream 401 or 403 clears the
cookie and mirrors the status with the normalized message; otherwise the JSON
body is mirrored with the upstream status; a network failure or a JSON parse
throw yields 500 with the route's generic error message. -/
def translateProtected (call : UpstreamCall) (genericErr : String)
    (outcome : Except String UpstreamResp) : GatewayResult :=
  match outcome with
  | .error _ => ⟨[call], ⟨500, errBody genericErr, .noChange⟩⟩
  | .ok r =>
      if r.status == 401 || r.status == 403 then
        sessionExpired call r.status
      else
        match r.bodyJson with
        | none => ⟨[call], ⟨500, errBody genericErr, .noChange⟩⟩
        | some data => ⟨[call], ⟨r.status, data, .noChange⟩⟩

/-- The upstream call of the create-incident proxy: the browser's JSON body
is forwarded unmodified with the bearer header. -/
def createIncidentCall (token : String) (req : Request) : UpstreamCall :=
  ⟨"POST", "/api/incidents", some (bearer token), some (.obj req.body)⟩

/-- src/app.js lines 157-180: POST /api/incidents. -/
def createIncidentHandler (up : Upstream) (token : String) (req : Request) :
    GatewayResult :=
  translateProtected (createIncidentCall token req)
    "Internal server error during incident creation proxy."
    (up (createIncidentCall token req))

/-- The upstream call of the update-incident proxy: the browser's JSON body
is forwarded unmodified with the bearer header. -/
def updateIncidentCall (token : String) (id : String) (req : Request) : UpstreamCall :=
  ⟨"PUT", "/api/incidents/" ++ id, some (bearer token), some (.obj req.body)⟩

/-- src/app.js lines 182-206: PUT /api/incidents/id. -/
def updateIncidentHandler (up : Upstream) (token : String) (id : String)
    (req : Request) : GatewayResult :=
  translateProtected (updateIncidentCall token id req)
    "Internal server error during incident update proxy."
    (up (updateIncidentCall token id req))

/-- The upstream call of the delete-incident proxy: no forwarded body. -/
def deleteIncidentCall (token : String) (id : String) : UpstreamCall :=
  ⟨"DELETE", "/api/incidents/" ++ id, some (bearer token), none⟩

/-- src/app.js lines 208-231: DELETE /api/incidents/id. -/
def deleteIncidentHandler (up : Upstream) (token : String) (id : String) :
    GatewayResult :=
  translateProtected (deleteIncidentCall token id)
    "Internal server error during incident deletion proxy."
    (up (deleteIncidentCall token id))

/-- The upstream call of the escalate proxy: POST /api/escalate/id with the
bearer header and no forwarded body. -/
def escalateCall (token : String) (id : String) : UpstreamCall :=
  ⟨"POST", "/api/escalate/" ++ id, some (bearer token), none⟩

/-- src/app.js lines 254-277: the escalate handler. -/
def handleEscalate (up : Upstream) (token : String) (id : String) : GatewayResult :=
  translateProtected (escalateCall token id)
    "Internal server error during escalation proxy."
    (up (escalateCall token id))

/-- src/app.js lines 234-237: POST /api/logout makes no upstream call, clears
the jwtToken cookie and answers 200 with a message. -/
def logoutHandler : GatewayResult :=
  ⟨[], ⟨200, msgBody "Logged out successfully.", .clear "jwtToken"⟩⟩

/-- The browser-facing operations of the route table, with their Express
route parameters. -/
inductive Route where
  | login : Route
  | register : Route
  | logout : Route
  | listIncidents : Route
  | getIncident (id : String) : Route
  | createIncident : Route
  | updateIncident (id : String) : Route
  | deleteIncident (id : String) : Route
  | escalate (id : String) : Route

/-- Whether the route table attaches the proxyAuthenticate middleware. -/
def Route.isProtected : Route → Bool
  | .listIncidents => true
  | .getIncident _ => true
  | .createIncident => true
  | .updateIncident _ => true
  | .deleteIncident _ => true
  | .escalate _ => true
  | .login => false
  | .register => false
  | .logout => false

/-- The route table of src/app.js: binds each browser-facing operation to its
handler, threading proxyAuthenticate in front of every protected one. -/
def handleRoute (up : Upstream) (env : Env) (req : Request) : Route → GatewayResult
  | .login => loginHandler up env req
  | .register => registerHandler up req
  | .logout => logoutHandler
  | .listIncidents => proxyAuthenticate req (fun t => handleGetIncidents up t none)
  | .getIncident id => proxyAuthenticate req (fun t => handleGetIncidents up t (some id))
  | .createIncident => proxyAuthenticate req (fun t => createIncidentHandler up t req)
  | .updateIncident id => proxyAuthenticate req (fun t => updateIncidentHandler up t id req)
  | .deleteIncident id => proxyAuthenticate req (fun t => deleteIncidentHandler up t id)
  | .escalate id => proxyAuthenticate req (fun t => handleEscalate up t id)

/-- Whether a JSON body is an object carrying an error field (a structured
gateway error body). -/
def hasErrorKey : Json → Bool
  | .obj fs => (fs.lookup "error").isSome
  | _ => false

/-- Whether an object field could contain the given text: false only when the
body is an object all of whose keys and string values provably do not contain
the text (a sound over-approximation sufficient for the constant error bodies
the gateway synthesizes). -/
def jsonMayContain (j : Json) (pat : String) : Bool :=
  match j with
  | .obj fs =>
      fs.any (fun kv =>
        strIncludes kv.1 pat ||
        match kv.2 with
        | .str s => strIncludes s pat
        | _ => true)
  | .str s => strIncludes s pat
  | _ => true

/-- C1: for every protected operation (list/get/create/update/delete incident,
escalate), a request whose cookies contain no session token is answered
locally with status 401 and the body with error field "Authentication
required. No token found.", and no upstream HTTP call is made. -/
theorem protected_no_token_rejected_locally
    (up : Upstream) (env : Env) (req : Request) (route : Route)
    (hprot : route.isProtected = true)
    (hno : req.cookies.lookup "jwtToken" = none) :
    handleRoute up env req route =
      ⟨[], ⟨401, errBody "Authentication required. No token found.", .noChange⟩⟩ := by
  cases route
  case login => simp [Route.isProtected] at hprot
  case register => simp [Route.isProtected] at hprot
  case logout => simp [Route.isProtected] at hprot
  all_goals simp [handleRoute, proxyAuthenticate, hno, guardReject]

/-- C1 witness: a list-incidents request without any cookie is rejected
locally with 401 and no upstream call. -/
theorem protected_no_token_rejected_locally_witness :
    Route.isProtected .listIncidents = true ∧
    (Request.mk [] []).cookies.lookup "jwtToken" = none ∧
    handleRoute (fun _ => .error "upstream must not be called") ⟨"test"⟩ ⟨[], []⟩
        .listIncidents =
      ⟨[], ⟨401, errBody "Authentication required. No token found.", .noChange⟩⟩ :=
  ⟨rfl, rfl,
    protected_no_token_rejected_locally (fun _ => .error "upstream must not be called")
      ⟨"test"⟩ ⟨[], []⟩ .listIncidents rfl rfl⟩

/-- C9: logout makes no upstream call for any input: it always responds 200
with a message body and clears the session cookie, and nothing else about the
outcome varies (the gateway holds no other state). -/
theorem logout_local_only (up : Upstream) (env : Env) (req : Request) :
    handleRoute up env req .logout =
      ⟨[], ⟨200, msgBody "Logged out successfully.", .clear "jwtToken"⟩⟩ := rfl

/-- C10: the register operation never sets and never clears the session
cookie, whatever the upstream does, so a session cookie held by the browser is
unaffected and registration alone never authenticates the browser. -/
theorem register_never_touches_cookie (up : Upstream) (env : Env) (req : Request) :
    (handleRoute up env req .register).response.cookie = CookieEffect.noChange := by
  show (registerHandler up req).response.cookie = CookieEffect.noChange
  unfold registerHandler
  cases up (registerCall req) with
  | error m => rfl
  | ok r =>
      obtain ⟨s, ct, bt, bj⟩ := r
      cases bj <;> rfl

/-- C2: for every protected operation, an upstream 401 or 403 makes the
gateway clear the session cookie and respond with the same status and the
normalized session-expired error body. -/
theorem upstream_auth_reject_clears_session
    (env : Env) (req : Request) (route : Route) (r : UpstreamResp) (t : String)
    (hprot : route.isProtected = true)
    (htok : req.cookies.lookup "jwtToken" = some t) (hne : t ≠ "")
    (hst : r.status = 401 ∨ r.status = 403) :
    (handleRoute (fun _ => .ok r) env req route).response =
      ⟨r.status, errBody "Session expired or invalid token. Please log in again.",
        .clear "jwtToken"⟩ := by
  have hbe : (t == "") = false := by simp [hne]
  have hcond : (r.status == 401 || r.status == 403) = true := by
    rcases hst with h | h <;> simp [h]
  cases route
  case login => simp [Route.isProtected] at hprot
  case register => simp [Route.isProtected] at hprot
  case logout => simp [Route.isProtected] at hprot
  all_goals simp [handleRoute, proxyAuthenticate, htok, hbe,
    handleGetIncidents, createIncidentHandler, updateIncidentHandler,
    deleteIncidentHandler, handleEscalate, translateProtected, sessionExpired, hcond]

/-- C2 witness: an upstream 401 on delete-incident clears the cookie and
mirrors the 401 with the normalized message. -/
theorem upstream_auth_reject_clears_session_witness :
    Route.isProtected (.deleteIncident "7") = true ∧
    (Request.mk [("jwtToken", "tok")] []).cookies.lookup "jwtToken" = some "tok" ∧
    "tok" ≠ "" ∧
    (UpstreamResp.mk 401 none "" none).status = 401 ∧
    (handleRoute (fun _ => .ok ⟨401, none, "", none⟩) ⟨"test"⟩
        ⟨[("jwtToken", "tok")], []⟩ (.deleteIncident "7")).response =
      ⟨401, errBody "Session expired or invalid token. Please log in again.",
        .clear "jwtToken"⟩ :=
  ⟨rfl, rfl, by decide, rfl,
    upstream_auth_reject_clears_session ⟨"test"⟩ ⟨[("jwtToken", "tok")], []⟩
      (.deleteIncident "7") ⟨401, none, "", none⟩ "tok" rfl rfl (by decide) (Or.inl rfl)⟩

/-- C5: every gateway operation that calls upstream catches a network failure
of the call and answers 500 with a structured JSON error body (an object with
an error field); the failure never escapes the handler (each handler is a
total function in this model because the catch block is part of it). -/
theorem network_failure_yields_500
    (env : Env) (req : Request) (route : Route) (m t : String)
    (hroute : route ≠ .logout)
    (htok : req.cookies.lookup "jwtToken" = some t) (hne : t ≠ "") :
    (handleRoute (fun _ => .error m) env req route).response.status = 500 ∧
    hasErrorKey (handleRoute (fun _ => .error m) env req route).response.body = true := by
  have hbe : (t == "") = false := by simp [hne]
  cases route
  case logout => exact absurd rfl hroute
  all_goals simp [handleRoute, proxyAuthenticate, htok, hbe, loginHandler,
    registerHandler, handleGetIncidents, createIncidentHandler, updateIncidentHandler,
    deleteIncidentHandler, handleEscalate, translateProtected, errBody, hasErrorKey]

/-- C5 witness: a network failure on create-incident yields a 500 with a
structured error body. -/
theorem network_failure_yields_500_witness :
    (Route.createIncident : Route) ≠ .logout ∧
    (Request.mk [("jwtToken", "tok")] []).cookies.lookup "jwtToken" = some "tok" ∧
    "tok" ≠ "" ∧
    ((handleRoute (fun _ => .error "ECONNREFUSED") ⟨"test"⟩
        ⟨[("jwtToken", "tok")], []⟩ .createIncident).response.status = 500 ∧
      hasErrorKey (handleRoute (fun _ => .error "ECONNREFUSED") ⟨"test"⟩
        ⟨[("jwtToken", "tok")], []⟩ .createIncident).response.body = true) :=
  ⟨by simp, rfl, by decide,
    network_failure_yields_500 ⟨"test"⟩ ⟨[("jwtToken", "tok")], []⟩ .createIncident
      "ECONNREFUSED" "tok" (by simp) rfl (by decide)⟩

/-- C6: on login, when the upstream reports success (2xx) but its body does
not carry a truthy token (missing token field, falsy token, unparseable or
null body), the gateway sets no session cookie and answers with a body
carrying an error field. -/
theorem login_success_without_token_fails
    (env : Env) (req : Request) (r : UpstreamResp)
    (hok : respOk r.status = true)
    (hnotok : ∀ d, r.bodyJson = some d → (jsField d "token").truthy = false) :
    (loginHandler (fun _ => .ok r) env req).response.cookie = CookieEffect.noChange ∧
    hasErrorKey (loginHandler (fun _ => .ok r) env req).response.body = true := by
  unfold loginHandler
  obtain ⟨s, ct, bt, bj⟩ := r
  cases bj with
  | none => simp [errBody, hasErrorKey]
  | some d =>
      have hd := hnotok d rfl
      cases d <;> simp_all [hasErrorKey, errBody, loginRespond]

/-- C6 witness: upstream 200 with a JSON body lacking a token field sets no
cookie and produces an error body. -/
theorem login_success_without_token_fails_witness :
    respOk (UpstreamResp.mk 200 none "" (some (.obj [("ok", .bool true)]))).status = true ∧
    (∀ d, (UpstreamResp.mk 200 none "" (some (.obj [("ok", .bool true)]))).bodyJson = some d →
      (jsField d "token").truthy = false) ∧
    ((loginHandler (fun _ => .ok ⟨200, none, "", some (.obj [("ok", .bool true)])⟩)
        ⟨"test"⟩ ⟨[], []⟩).response.cookie = CookieEffect.noChange ∧
      hasErrorKey (loginHandler (fun _ => .ok ⟨200, none, "", some (.obj [("ok", .bool true)])⟩)
        ⟨"test"⟩ ⟨[], []⟩).response.body = true) :=
  ⟨rfl, fun d hd => by cases hd; rfl,
    login_success_without_token_fails ⟨"test"⟩ ⟨[], []⟩
      ⟨200, none, "", some (.obj [("ok", .bool true)])⟩ rfl
      (fun d hd => by cases hd; rfl)⟩

/-- With an ok status and a truthy token field, loginRespond sets the session
cookie with the fixed flags and answers the fixed success message. -/
theorem loginRespond_sets (env : Env) (call : UpstreamCall) (status : Nat)
    (d tok : Json) (hok : respOk status = true)
    (htok : jsField d "token" = .val tok) (htr : jsTruthy tok = true) :
    loginRespond env call status d =
      ⟨[call],
        ⟨200, msgBody "Login successful",
          .set "jwtToken" tok true (env.nodeEnv == "production") 3600000 "Lax"⟩⟩ := by
  unfold loginRespond
  simp [htok, hok, htr, JsVal.truthy, jsOr]

/-- When the login condition is false, loginRespond mirrors the upstream
status with an error body and no cookie change. -/
theorem loginRespond_fails (env : Env) (call : UpstreamCall) (status : Nat)
    (d : Json) (hcond : (respOk status && (jsField d "token").truthy) = false) :
    loginRespond env call status d =
      ⟨[call],
        ⟨status, .obj [("error", jsOr (jsField d "error") (.str "Login failed"))],
          .noChange⟩⟩ := by
  unfold loginRespond
  simp [hcond]

/-- Inversion of loginRespond: a run that set a cookie set the jwtToken
cookie with the fixed flags from a truthy token field of an ok response, and
answered the fixed success message. -/
theorem loginRespond_set_inv (env : Env) (call : UpstreamCall) (status : Nat)
    (d : Json) (name : String) (v : Json) (ho sec : Bool) (ma : Nat) (ss : String)
    (hset : (loginRespond env call status d).response.cookie = .set name v ho sec ma ss) :
    name = "jwtToken" ∧ ho = true ∧ sec = (env.nodeEnv == "production") ∧
    ma = 3600000 ∧ ss = "Lax" ∧ respOk status = true ∧
    jsField d "token" = .val v ∧ jsTruthy v = true ∧
    loginRespond env call status d =
      ⟨[call], ⟨200, msgBody "Login successful", .set name v ho sec ma ss⟩⟩ := by
  by_cases hcond : (respOk status && (jsField d "token").truthy) = true
  · rw [Bool.and_eq_true] at hcond
    obtain ⟨hok, htr⟩ := hcond
    revert htr
    cases hjf : jsField d "token" with
    | undefined =>
        intro htr
        simp [JsVal.truthy] at htr
    | val j =>
        intro htr
        have hjt : jsTruthy j = true := htr
        have hres := loginRespond_sets env call status d j hok hjf hjt
        rw [hres] at hset
        have hset2 : CookieEffect.set "jwtToken" j true (env.nodeEnv == "production")
            3600000 "Lax" = CookieEffect.set name v ho sec ma ss := hset
        injection hset2 with h1 h2 h3 h4 h5 h6
        subst h1
        subst h2
        subst h3
        subst h4
        subst h5
        subst h6
        exact ⟨rfl, rfl, rfl, rfl, rfl, hok, rfl, hjt, hres⟩
  · rw [Bool.not_eq_true] at hcond
    rw [loginRespond_fails env call status d hcond] at hset
    simp at hset

/-- Inversion of the whole login proxy: a run that set a cookie saw the
upstream answer ok with a JSON body whose token field is truthy, set the
jwtToken cookie with the fixed flags, and answered 200 with the fixed
success message. -/
theorem loginHandler_set_inv (up : Upstream) (env : Env) (req : Request)
    (name : String) (v : Json) (ho sec : Bool) (ma : Nat) (ss : String)
    (hset : (loginHandler up env req).response.cookie = .set name v ho sec ma ss) :
    name = "jwtToken" ∧ ho = true ∧ sec = (env.nodeEnv == "production") ∧
    ma = 3600000 ∧ ss = "Lax" ∧ jsTruthy v = true ∧
    loginHandler up env req =
      ⟨[loginCall req], ⟨200, msgBody "Login successful", .set name v ho sec ma ss⟩⟩ ∧
    ∃ r d, up (loginCall req) = .ok r ∧ respOk r.status = true ∧
      r.bodyJson = some d ∧ jsField d "token" = .val v := by
  unfold loginHandler at hset ⊢
  cases hup : up (loginCall req) with
  | error m =>
      rw [hup] at hset
      simp at hset
  | ok r =>
      rw [hup] at hset
      obtain ⟨s, ct, bt, bj⟩ := r
      cases bj with
      | none => simp at hset
      | some d =>
          cases d
          case null => simp at hset
          all_goals
            obtain ⟨hn, hho, hsec, hma, hss, hok, hjf, hjt, heq⟩ :=
              loginRespond_set_inv env (loginCall req) s _ name v ho sec ma ss hset
          all_goals
            exact ⟨hn, hho, hsec, hma, hss, hjt, heq,
              ⟨⟨s, ct, bt, some _⟩, _, rfl, hok, rfl, hjf⟩⟩

/-- C3: on login the gateway sets the session cookie if and only if the
upstream response is successful (2xx) and its JSON body carries a truthy
token. The cookie is named jwtToken, holds the upstream token verbatim, is
HttpOnly, SameSite Lax, Secure exactly when NODE_ENV is production, with a
max-age of 3600000 milliseconds, i.e. 3600 seconds; and the gateway then
answers 200 with the fixed success-message body, which does not carry the
token. -/
theorem login_cookie_iff (up : Upstream) (env : Env) (req : Request) :
    (∀ r d tok, up (loginCall req) = .ok r → respOk r.status = true →
        r.bodyJson = some d → jsField d "token" = .val tok → jsTruthy tok = true →
        loginHandler up env req =
          ⟨[loginCall req],
            ⟨200, msgBody "Login successful",
              .set "jwtToken" tok true (env.nodeEnv == "production") 3600000 "Lax"⟩⟩) ∧
    (∀ name v ho sec ma ss,
        (loginHandler up env req).response.cookie = .set name v ho sec ma ss →
        name = "jwtToken" ∧ ho = true ∧ sec = (env.nodeEnv == "production") ∧
        ma = 3600000 ∧ ss = "Lax" ∧ jsTruthy v = true ∧
        loginHandler up env req =
          ⟨[loginCall req], ⟨200, msgBody "Login successful", .set name v ho sec ma ss⟩⟩ ∧
        ∃ r d, up (loginCall req) = .ok r ∧ respOk r.status = true ∧
          r.bodyJson = some d ∧ jsField d "token" = .val v) := by
  constructor
  · intro r d tok hup hok hbj htok htr
    unfold loginHandler
    simp only [hup, hbj]
    cases d
    case null => simp [jsField] at htok
    all_goals exact loginRespond_sets env (loginCall req) r.status _ tok hok htok htr
  · intro name v ho sec ma ss hset
    exact loginHandler_set_inv up env req name v ho sec ma ss hset

/-- C3 witness: a 200 upstream login response carrying token tok123 makes the
gateway set the jwtToken cookie (HttpOnly, Secure under production, max-age
3600000 ms, SameSite Lax) and answer the fixed success message. -/
theorem login_cookie_iff_witness :
    ((fun _ => Except.ok ⟨200, none, "", some (.obj [("token", .str "tok123")])⟩ :
        Upstream) (loginCall ⟨[], []⟩) =
      Except.ok (⟨200, none, "", some (.obj [("token", .str "tok123")])⟩ : UpstreamResp)) ∧
    respOk 200 = true ∧
    jsField (.obj [("token", .str "tok123")]) "token" = .val (.str "tok123") ∧
    jsTruthy (.str "tok123") = true ∧
    loginHandler
        (fun _ => Except.ok ⟨200, none, "", some (.obj [("token", .str "tok123")])⟩ :
          Upstream)
        ⟨"production"⟩ ⟨[], []⟩ =
      ⟨[loginCall ⟨[], []⟩],
        ⟨200, msgBody "Login successful",
          .set "jwtToken" (.str "tok123") true true 3600000 "Lax"⟩⟩ :=
  ⟨rfl, rfl, rfl, rfl,
    (login_cookie_iff
        (fun _ => Except.ok ⟨200, none, "", some (.obj [("token", .str "tok123")])⟩ :
          Upstream)
        ⟨"production"⟩ ⟨[], []⟩).1
      ⟨200, none, "", some (.obj [("token", .str "tok123")])⟩
      (.obj [("token", .str "tok123")]) (.str "tok123") rfl rfl rfl rfl rfl⟩

/-- The browser-facing response of the shared post-fetch translation depends
only on the upstream outcome, never on the upstream call (hence never on the
bearer token inside it). -/
theorem translateProtected_response_call_irrelevant (c1 c2 : UpstreamCall)
    (g : String) (o : Except String UpstreamResp) :
    (translateProtected c1 g o).response = (translateProtected c2 g o).response := by
  unfold translateProtected
  cases o with
  | error m => rfl
  | ok r =>
      obtain ⟨s, ct, bt, bj⟩ := r
      by_cases h : (s == 401 || s == 403) = true
      · simp [h, sessionExpired]
      · rw [Bool.not_eq_true] at h
        simp only [h, Bool.false_eq_true, if_false]
        cases bj <;> rfl

/-- The browser-facing response of the GET-incidents handler depends only on
the upstream outcome, never on the bearer token. -/
theorem handleGetIncidents_response_token_irrelevant
    (o : Except String UpstreamResp) (t1 t2 : String) (id : Option String) :
    (handleGetIncidents (fun _ => o) t1 id).response =
      (handleGetIncidents (fun _ => o) t2 id).response := by
  unfold handleGetIncidents
  cases o with
  | error m => rfl
  | ok r =>
      obtain ⟨s, ct, bt, bj⟩ := r
      by_cases h : (s == 401 || s == 403) = true
      · simp [h, sessionExpired]
      · rw [Bool.not_eq_true] at h
        simp only [h, Bool.false_eq_true, if_false]
        by_cases hct : contentTypeJson ct = true
        · simp only [hct, Bool.not_true, Bool.false_eq_true, if_false]
          cases bj <;> rfl
        · rw [Bool.not_eq_true] at hct
          simp only [hct, Bool.not_false, if_true]

/-- C7: the session token is never emitted in readable form in any response
body the gateway produces locally. First, for every protected operation and
every fixed upstream outcome, the browser-facing response is identical for
any two (truthy) cookie token values: the token can influence nothing in the
response, so the guard 401, the session-expired message, the gateway 500
errors and the mirrored bodies never embed it. Second, when login sets the
cookie the 200 body is the fixed success message. Third, the logout body is
the fixed message. The token value reaches only the Authorization header of
the upstream call and the Set-Cookie directive. -/
theorem session_token_never_readable (env : Env) :
    (∀ (o : Except String UpstreamResp) (body : List (String × Json))
        (t1 t2 : String) (route : Route), t1 ≠ "" → t2 ≠ "" →
        route.isProtected = true →
        (handleRoute (fun _ => o) env ⟨[("jwtToken", t1)], body⟩ route).response =
          (handleRoute (fun _ => o) env ⟨[("jwtToken", t2)], body⟩ route).response) ∧
    (∀ (up : Upstream) (req : Request) (name : String) (v : Json)
        (ho sec : Bool) (ma : Nat) (ss : String),
        (loginHandler up env req).response.cookie = .set name v ho sec ma ss →
        (loginHandler up env req).response.body = msgBody "Login successful") ∧
    (∀ (up : Upstream) (req : Request),
        (handleRoute up env req .logout).response.body =
          msgBody "Logged out successfully.") := by
  refine ⟨?_, ?_, fun up req => rfl⟩
  · intro o body t1 t2 route h1 h2 hprot
    have hb1 : (t1 == "") = false := by simp [h1]
    have hb2 : (t2 == "") = false := by simp [h2]
    cases route
    case login => simp [Route.isProtected] at hprot
    case register => simp [Route.isProtected] at hprot
    case logout => simp [Route.isProtected] at hprot
    case listIncidents =>
        simp only [handleRoute, proxyAuthenticate, List.lookup, beq_self_eq_true, hb1,
          hb2, Bool.false_eq_true, if_false]
        exact handleGetIncidents_response_token_irrelevant o t1 t2 none
    case getIncident id =>
        simp only [handleRoute, proxyAuthenticate, List.lookup, beq_self_eq_true, hb1,
          hb2, Bool.false_eq_true, if_false]
        exact handleGetIncidents_response_token_irrelevant o t1 t2 (some id)
    case createIncident =>
        simp only [handleRoute, proxyAuthenticate, List.lookup, beq_self_eq_true, hb1,
          hb2, Bool.false_eq_true, if_false, createIncidentHandler]
        exact translateProtected_response_call_irrelevant _ _ _ o
    case updateIncident id =>
        simp only [handleRoute, proxyAuthenticate, List.lookup, beq_self_eq_true, hb1,
          hb2, Bool.false_eq_true, if_false, updateIncidentHandler]
        exact translateProtected_response_call_irrelevant _ _ _ o
    case deleteIncident id =>
        simp only [handleRoute, proxyAuthenticate, List.lookup, beq_self_eq_true, hb1,
          hb2, Bool.false_eq_true, if_false, deleteIncidentHandler]
        exact translateProtected_response_call_irrelevant _ _ _ o
    case escalate id =>
        simp only [handleRoute, proxyAuthenticate, List.lookup, beq_self_eq_true, hb1,
          hb2, Bool.false_eq_true, if_false, handleEscalate]
        exact translateProtected_response_call_irrelevant _ _ _ o
  · intro up req name v ho sec ma ss hset
    obtain ⟨-, -, -, -, -, -, heq, -⟩ :=
      loginHandler_set_inv up env req name v ho sec ma ss hset
    rw [heq]

/-- C7 witness: with a fixed upstream 200 outcome, the list-incidents
response is identical for two different session tokens. -/
theorem session_token_never_readable_witness :
    "alice" ≠ "" ∧ "bob" ≠ "" ∧ Route.isProtected .listIncidents = true ∧
    (handleRoute
        (fun _ => Except.ok ⟨200, some "application/json", "[]", some (.arr [])⟩ :
          Upstream)
        ⟨"test"⟩ ⟨[("jwtToken", "alice")], []⟩ .listIncidents).response =
      (handleRoute
        (fun _ => Except.ok ⟨200, some "application/json", "[]", some (.arr [])⟩ :
          Upstream)
        ⟨"test"⟩ ⟨[("jwtToken", "bob")], []⟩ .listIncidents).response :=
  ⟨by decide, by decide, rfl,
    (session_token_never_readable ⟨"test"⟩).1
      (Except.ok ⟨200, some "application/json", "[]", some (.arr [])⟩) [] "alice" "bob"
      .listIncidents (by decide) (by decide) rfl⟩

/-- Whatever the upstream outcome, the shared post-fetch translation reports
exactly the one call it was given. -/
theorem translateProtected_calls (call : UpstreamCall) (g : String)
    (o : Except String UpstreamResp) :
    (translateProtected call g o).calls = [call] := by
  unfold translateProtected
  cases o with
  | error m => rfl
  | ok r =>
      obtain ⟨s, ct, bt, bj⟩ := r
      by_cases h : (s == 401 || s == 403) = true
      · simp [h, sessionExpired]
      · rw [Bool.not_eq_true] at h
        simp only [h, Bool.false_eq_true, if_false]
        cases bj <;> rfl

/-- Whatever the upstream outcome, the GET-incidents handler issues exactly
its one upstream call. -/
theorem handleGetIncidents_calls (up : Upstream) (t : String) (id : Option String) :
    (handleGetIncidents up t id).calls = [getIncidentsCall t id] := by
  unfold handleGetIncidents
  cases up (getIncidentsCall t id) with
  | error m => rfl
  | ok r =>
      obtain ⟨s, ct, bt, bj⟩ := r
      by_cases h : (s == 401 || s == 403) = true
      · simp [h, sessionExpired]
      · rw [Bool.not_eq_true] at h
        simp only [h, Bool.false_eq_true, if_false]
        by_cases hct : contentTypeJson ct = true
        · simp only [hct, Bool.not_true, Bool.false_eq_true, if_false]
          cases bj <;> rfl
        · rw [Bool.not_eq_true] at hct
          simp only [hct, Bool.not_false, if_true]

/-- C8: every protected operation passes through the session guard (with no
usable token it issues no upstream call), and with a credential present it
issues exactly one upstream call with the method and path of the route table
(escalate as POST /api/escalate/id), injecting the header Authorization:
Bearer followed by the verbatim cookie value, and for create and update
forwarding the browser's JSON body unmodified. -/
theorem protected_forwarding
    (env : Env) (o : Except String UpstreamResp) (body : List (String × Json))
    (t id : String) (ht : t ≠ "") (hid : id ≠ "") :
    (∀ (up : Upstream) (req : Request) (route : Route), route.isProtected = true →
        req.cookies.lookup "jwtToken" = none →
        (handleRoute up env req route).calls = []) ∧
    ((handleRoute (fun _ => o) env ⟨[("jwtToken", t)], body⟩ .listIncidents).calls =
      [⟨"GET", "/api/incidents", some ("Bearer " ++ t), none⟩]) ∧
    ((handleRoute (fun _ => o) env ⟨[("jwtToken", t)], body⟩ (.getIncident id)).calls =
      [⟨"GET", "/api/incidents/" ++ id, some ("Bearer " ++ t), none⟩]) ∧
    ((handleRoute (fun _ => o) env ⟨[("jwtToken", t)], body⟩ .createIncident).calls =
      [⟨"POST", "/api/incidents", some ("Bearer " ++ t), some (.obj body)⟩]) ∧
    ((handleRoute (fun _ => o) env ⟨[("jwtToken", t)], body⟩ (.updateIncident id)).calls =
      [⟨"PUT", "/api/incidents/" ++ id, some ("Bearer " ++ t), some (.obj body)⟩]) ∧
    ((handleRoute (fun _ => o) env ⟨[("jwtToken", t)], body⟩ (.deleteIncident id)).calls =
      [⟨"DELETE", "/api/incidents/" ++ id, some ("Bearer " ++ t), none⟩]) ∧
    ((handleRoute (fun _ => o) env ⟨[("jwtToken", t)], body⟩ (.escalate id)).calls =
      [⟨"POST", "/api/escalate/" ++ id, some ("Bearer " ++ t), none⟩]) := by
  have hbt : (t == "") = false := by simp [ht]
  have hbid : (id == "") = false := by simp [hid]
  refine ⟨?_, ?_, ?_, ?_, ?_, ?_, ?_⟩
  · intro up req route hprot hno
    cases route
    case login => simp [Route.isProtected] at hprot
    case register => simp [Route.isProtected] at hprot
    case logout => simp [Route.isProtected] at hprot
    all_goals simp [handleRoute, proxyAuthenticate, hno, guardReject]
  · simp only [handleRoute, proxyAuthenticate, List.lookup, beq_self_eq_true, hbt,
      Bool.false_eq_true, if_false]
    rw [handleGetIncidents_calls]
    simp [getIncidentsCall, incidentsUrl, bearer]
  · simp only [handleRoute, proxyAuthenticate, List.lookup, beq_self_eq_true, hbt,
      Bool.false_eq_true, if_false]
    rw [handleGetIncidents_calls]
    simp [getIncidentsCall, incidentsUrl, bearer, hbid]
  · simp only [handleRoute, proxyAuthenticate, List.lookup, beq_self_eq_true, hbt,
      Bool.false_eq_true, if_false, createIncidentHandler]
    rw [translateProtected_calls]
    simp [createIncidentCall, bearer]
  · simp only [handleRoute, proxyAuthenticate, List.lookup, beq_self_eq_true, hbt,
      Bool.false_eq_true, if_false, updateIncidentHandler]
    rw [translateProtected_calls]
    simp [updateIncidentCall, bearer]
  · simp only [handleRoute, proxyAuthenticate, List.lookup, beq_self_eq_true, hbt,
      Bool.false_eq_true, if_false, deleteIncidentHandler]
    rw [translateProtected_calls]
    simp [deleteIncidentCall, bearer]
  · simp only [handleRoute, proxyAuthenticate, List.lookup, beq_self_eq_true, hbt,
      Bool.false_eq_true, if_false, handleEscalate]
    rw [translateProtected_calls]
    simp [escalateCall, bearer]

/-- C8 witness: with token tok and id 42, the escalate route issues exactly
one POST /api/escalate/42 call carrying the bearer header. -/
theorem protected_forwarding_witness :
    "tok" ≠ "" ∧ "42" ≠ "" ∧
    (handleRoute (fun _ => Except.error "down" : Upstream) ⟨"test"⟩
        ⟨[("jwtToken", "tok")], [("title", .str "Server down")]⟩ (.escalate "42")).calls =
      [⟨"POST", "/api/escalate/" ++ "42", some ("Bearer " ++ "tok"), none⟩] :=
  ⟨by decide, by decide,
    (protected_forwarding ⟨"test"⟩ (Except.error "down")
        [("title", .str "Server down")] "tok" "42" (by decide) (by decide)).2.2.2.2.2.2⟩

/-- C4 counterexample: on create-incident, a 200 upstream response whose body
is not valid JSON makes the gateway answer 500 with the fixed generic
creation-proxy message, and that error body does not include the raw
upstream text, contrary to the claim that every forwarding operation
includes it. -/
theorem create_nonjson_omits_raw_text :
    (handleRoute
        (fun _ => Except.ok ⟨200, some "text/plain", "raw-upstream-text", none⟩ :
          Upstream)
        ⟨"test"⟩ ⟨[("jwtToken", "tok")], []⟩ .createIncident).response =
      ⟨500, errBody "Internal server error during incident creation proxy.",
        .noChange⟩ ∧
    jsonMayContain
      (handleRoute
        (fun _ => Except.ok ⟨200, some "text/plain", "raw-upstream-text", none⟩ :
          Upstream)
        ⟨"test"⟩ ⟨[("jwtToken", "tok")], []⟩ .createIncident).response.body
      "raw-upstream-text" = false :=
  ⟨rfl, rfl⟩

/-- C4 amended: how each operation actually translates a non-JSON upstream
body. Register answers 500 with the non-JSON-response error and the raw text
in a response field, for any upstream status. List/get incidents answer 500
with the raw text in a details field when the content-type is missing or not
JSON, but a generic 500 without the raw text when the content-type is JSON
and the body still fails to parse. Login, create, update, delete and
escalate answer a 2xx non-JSON body with a fixed generic operation message
that does not include the raw text. -/
theorem nonjson_upstream_translation
    (env : Env) (req : Request) (body : List (String × Json)) (t id : String)
    (r : UpstreamResp) (ht : t ≠ "") (hbj : r.bodyJson = none)
    (hok : respOk r.status = true) :
    ((handleRoute (fun _ => .ok r) env req .register).response =
      ⟨500, .obj [("error", .str "Backend returned non-JSON response"),
        ("response", .str r.bodyText)], .noChange⟩) ∧
    (contentTypeJson r.contentType = false →
      (handleRoute (fun _ => .ok r) env ⟨[("jwtToken", t)], body⟩ .listIncidents).response =
        ⟨500, .obj [("error", .str "Backend service unavailable or incorrect response format"),
          ("details", .str r.bodyText)], .noChange⟩) ∧
    (contentTypeJson r.contentType = true →
      (handleRoute (fun _ => .ok r) env ⟨[("jwtToken", t)], body⟩ .listIncidents).response =
        ⟨500, errBody "Internal server error during incident fetch proxy.", .noChange⟩) ∧
    (contentTypeJson r.contentType = false →
      (handleRoute (fun _ => .ok r) env ⟨[("jwtToken", t)], body⟩ (.getIncident id)).response =
        ⟨500, .obj [("error", .str "Backend service unavailable or incorrect response format"),
          ("details", .str r.bodyText)], .noChange⟩) ∧
    (contentTypeJson r.contentType = true →
      (handleRoute (fun _ => .ok r) env ⟨[("jwtToken", t)], body⟩ (.getIncident id)).response =
        ⟨500, errBody "Internal server error during incident fetch proxy.", .noChange⟩) ∧
    ((handleRoute (fun _ => .ok r) env ⟨[("jwtToken", t)], body⟩ .createIncident).response =
      ⟨500, errBody "Internal server error during incident creation proxy.", .noChange⟩) ∧
    ((handleRoute (fun _ => .ok r) env ⟨[("jwtToken", t)], body⟩ (.updateIncident id)).response =
      ⟨500, errBody "Internal server error during incident update proxy.", .noChange⟩) ∧
    ((handleRoute (fun _ => .ok r) env ⟨[("jwtToken", t)], body⟩ (.deleteIncident id)).response =
      ⟨500, errBody "Internal server error during incident deletion proxy.", .noChange⟩) ∧
    ((handleRoute (fun _ => .ok r) env ⟨[("jwtToken", t)], body⟩ (.escalate id)).response =
      ⟨500, errBody "Internal server error during escalation proxy.", .noChange⟩) ∧
    ((handleRoute (fun _ => .ok r) env req .login).response =
      ⟨500, errBody "Internal server error during login proxy.", .noChange⟩) := by
  have hbt : (t == "") = false := by simp [ht]
  have hlt : r.status < 300 := by
    unfold respOk at hok
    rw [Bool.and_eq_true] at hok
    exact of_decide_eq_true hok.2
  have h401 : (r.status == 401) = false := by
    simp only [beq_eq_false_iff_ne, ne_eq]
    omega
  have h403 : (r.status == 403) = false := by
    simp only [beq_eq_false_iff_ne, ne_eq]
    omega
  have hcond : (r.status == 401 || r.status == 403) = false := by
    rw [h401, h403]
    rfl
  refine ⟨?_, ?_, ?_, ?_, ?_, ?_, ?_, ?_, ?_, ?_⟩
  · simp [handleRoute, registerHandler, hbj]
  · intro hct
    simp [handleRoute, proxyAuthenticate, List.lookup, hbt, handleGetIncidents,
      hcond, hct, hbj]
  · intro hct
    simp [handleRoute, proxyAuthenticate, List.lookup, hbt, handleGetIncidents,
      hcond, hct, hbj]
  · intro hct
    simp [handleRoute, proxyAuthenticate, List.lookup, hbt, handleGetIncidents,
      hcond, hct, hbj]
  · intro hct
    simp [handleRoute, proxyAuthenticate, List.lookup, hbt, handleGetIncidents,
      hcond, hct, hbj]
  · simp [handleRoute, proxyAuthenticate, List.lookup, hbt, createIncidentHandler,
      translateProtected, hcond, hbj]
  · simp [handleRoute, proxyAuthenticate, List.lookup, hbt, updateIncidentHandler,
      translateProtected, hcond, hbj]
  · simp [handleRoute, proxyAuthenticate, List.lookup, hbt, deleteIncidentHandler,
      translateProtected, hcond, hbj]
  · simp [handleRoute, proxyAuthenticate, List.lookup, hbt, handleEscalate,
      translateProtected, hcond, hbj]
  · simp [handleRoute, loginHandler, hbj]

/-- C4 amended witness: a 200 text/plain upstream body makes register answer
the non-JSON error carrying the raw text, while create answers the generic
creation error. -/
theorem nonjson_upstream_translation_witness :
    "tok" ≠ "" ∧
    (UpstreamResp.mk 200 (some "text/html") "oops-raw" none).bodyJson = none ∧
    respOk 200 = true ∧
    (handleRoute (fun _ => Except.ok ⟨200, some "text/html", "oops-raw", none⟩ :
        Upstream) ⟨"test"⟩ ⟨[], []⟩ .register).response =
      ⟨500, .obj [("error", .str "Backend returned non-JSON response"),
        ("response", .str "oops-raw")], .noChange⟩ ∧
    (handleRoute (fun _ => Except.ok ⟨200, some "text/html", "oops-raw", none⟩ :
        Upstream) ⟨"test"⟩ ⟨[("jwtToken", "tok")], []⟩ .createIncident).response =
      ⟨500, errBody "Internal server error during incident creation proxy.",
        .noChange⟩ :=
  ⟨by decide, rfl, rfl,
    (nonjson_upstream_translation ⟨"test"⟩ ⟨[], []⟩ [] "tok" "9"
        ⟨200, some "text/html", "oops-raw", none⟩ (by decide) rfl rfl).1,
    (nonjson_upstream_translation ⟨"test"⟩ ⟨[], []⟩ [] "tok" "9"
        ⟨200, some "text/html", "oops-raw", none⟩ (by decide) rfl rfl).2.2.2.2.2.1⟩

end Gateway

